import Mathlib

/-!
Verification development for the gcs-rsync repository.

Strings from the Rust sources are embedded as `List Char`; byte payloads as
`List Nat`. Each definition mirrors one function of the repository, named in
its doc comment. `ObjectPfx` embeds the Rust `ObjectPrefix` type (the Rust
field and type names collide with Lean keywords, so the shortened spelling
`pfx` is used throughout).
-/

set_option maxRecDepth 4000

namespace GcsRsync

instance {ε α : Type} [DecidableEq ε] [DecidableEq α] : DecidableEq (Except ε α) :=
  fun x y =>
    match x, y with
    | .ok a, .ok b =>
      if h : a = b then isTrue (h ▸ rfl) else isFalse fun hc => h (Except.ok.inj hc)
    | .error a, .error b =>
      if h : a = b then isTrue (h ▸ rfl) else isFalse fun hc => h (Except.error.inj hc)
    | .ok _, .error _ => isFalse fun hc => Except.noConfusion hc
    | .error _, .ok _ => isFalse fun hc => Except.noConfusion hc

/-- Embeds `RelativePath` (src/src/gcp/sync/mod.rs): a path string wrapper. -/
structure RelativePath where
  path : List Char
deriving DecidableEq

/-- Embeds `storage::Error` (src/src/gcp/storage/mod.rs), restricted to the
variants the embedded functions construct or match on. -/
inductive StorageError where
  | gcsInvalidObjectName
  | gcsResourceNotFound (url : List Char)
  | gcsTokenError (e : Nat)
deriving DecidableEq

/-- Embeds `std::io::Error` opaquely: only its identity matters here. -/
structure IoError where
  code : Nat
deriving DecidableEq

/-- Embeds `RSyncError` (src/src/gcp/sync/mod.rs), restricted to the variants
the embedded functions construct or match on. -/
inductive RSyncError where
  | missingFieldsInGcsResponse (field : List Char)
  | storageError (e : StorageError)
  | fsIoError (message : String) (path : List Char) (error : IoError)
  | emptyRelativePathError
  | globError
deriving DecidableEq

/-- Embeds Rust `str::strip_prefix(c).unwrap_or(s)`: drop one leading
occurrence of the character `c` when present, else return the input. -/
def stripOnce (c : Char) (s : List Char) : List Char :=
  match s with
  | [] => []
  | x :: rest => if x = c then rest else x :: rest

/-- Embeds `RelativePath::new` (src/src/gcp/sync/mod.rs:414-425): strip one
leading slash, replace every backslash by a slash, and refuse an empty result. -/
def RelativePath.new (path : List Char) : Except RSyncError RelativePath :=
  let p := (stripOnce '/' path).map fun c => if c = '\\' then '/' else c
  if p.isEmpty then .error .emptyRelativePathError else .ok ⟨p⟩

/-- Embeds `Object` (src/src/gcp/storage/resources/object.rs): a bucket/name pair. -/
structure Object where
  bucket : List Char
  name : List Char
deriving DecidableEq

/-- Embeds `Object::new` (src/src/gcp/storage/resources/object.rs:103-116):
refuse an empty bucket, and an empty name or a name starting with a dot. -/
def Object.new (bucket name : List Char) : Except StorageError Object :=
  if bucket.isEmpty then .error .gcsInvalidObjectName
  else if name.isEmpty || name.head? = some '.' then .error .gcsInvalidObjectName
  else .ok ⟨bucket, name⟩

/-- Embeds `ObjectsListRequest` (src/src/gcp/storage/resources/object.rs),
restricted to the fields `ObjectPrefix::new` populates. -/
structure ObjectsListRequest where
  pfx : Option (List Char)
  fields : Option (List Char)
deriving DecidableEq

/-- Embeds `ObjectPrefix` (src/src/gcp/sync/gcs.rs:19-23). -/
structure ObjectPfx where
  bucket : List Char
  pfx : List Char
  objectsListRequest : ObjectsListRequest
deriving DecidableEq

/-- Embeds `ObjectPrefix::new` (src/src/gcp/sync/gcs.rs:26-41): both the bucket
and the prefix are stored verbatim; the list request carries the verbatim
prefix and the fields filter. -/
def ObjectPfx.new (bucket pfxArg : List Char) : ObjectPfx :=
  { bucket := bucket
    pfx := pfxArg
    objectsListRequest := { pfx := some pfxArg, fields := some "items(name),nextPageToken".data } }

/-- Embeds `ObjectPrefix::as_object` (src/src/gcp/sync/gcs.rs:43-48): the GCS
object is built from the bucket and the relative path alone. -/
def ObjectPfx.asObject (op : ObjectPfx) (name : RelativePath) : Except RSyncError Object :=
  match Object.new op.bucket name.path with
  | .ok o => .ok o
  | .error e => .error (.storageError e)

/-- Embeds Rust `str::strip_prefix(p)`: `some` of the remainder when `p` is a
prefix of `s`, else `none`. -/
def stripList (p s : List Char) : Option (List Char) :=
  match p, s with
  | [], rest => some rest
  | _ :: _, [] => none
  | a :: p', b :: s' => if a = b then stripList p' s' else none

/-- Embeds Rust `str::ends_with("/")` on a `List Char`. -/
def endsWithSlash (l : List Char) : Bool :=
  l.getLast? = some '/'

/-- Embeds `ObjectPrefix::as_relative_path` (src/src/gcp/sync/gcs.rs:50-62):
when the stored prefix is empty the strip pattern is "/", otherwise the stored
prefix itself; the pattern is stripped only when the stored prefix ends with a
slash, and the result goes through `RelativePath::new`. -/
def ObjectPfx.asRelativePath (op : ObjectPfx) (name : List Char) : Except RSyncError RelativePath :=
  let pat := if op.pfx.isEmpty then ['/'] else op.pfx
  let path := if endsWithSlash op.pfx then (stripList pat name).getD name else name
  RelativePath.new path

/-- Embeds the per-item mapping of `GcsClient::list` (src/src/gcp/sync/gcs.rs:
92-107): a missing `name` field is a protocol error, otherwise the object name
is converted through `ObjectPrefix::as_relative_path`. -/
def gcsListItem (op : ObjectPfx) (nameField : Option (List Char)) :
    Except RSyncError RelativePath :=
  match nameField with
  | none => .error (.missingFieldsInGcsResponse "name".data)
  | some name => op.asRelativePath name

/-- Embeds `chrono::DateTime<chrono::Utc>` as whole seconds plus a
subsecond part; `timestamp` truncates to whole Unix seconds. -/
structure DateTime where
  secs : Int
  nanos : Nat
deriving DecidableEq

/-- Embeds `chrono::DateTime::timestamp`: the whole-second part. -/
def DateTime.timestamp (d : DateTime) : Int := d.secs

/-- Embeds `Entry` (src/src/gcp/sync/mod.rs:428-440): a path with its crc32c. -/
structure Entry where
  path : RelativePath
  crc32c : Nat
deriving DecidableEq

/-- Embeds `RSyncStatus` (src/src/gcp/sync/mod.rs:478-482). -/
inductive RSyncStatus where
  | created (path : RelativePath)
  | updated (reason : String) (path : RelativePath)
  | alreadySynced (reason : String) (path : RelativePath)
deriving DecidableEq

/-- One metadata fetch the engine performs against an endpoint, recorded in
order; `sync_entry` / `sync_entry_crc32c` below return the fetches they issue. -/
inductive FetchEvent where
  | destSizeMt | srcSizeMt | destCrc | srcCrc
deriving DecidableEq

/-- One `write_entry` call (src/src/gcp/sync/mod.rs:190-200): the source is
streamed to the destination with the given optional mtime. -/
structure WriteEvent where
  mtime : Option DateTime
  path : RelativePath
deriving DecidableEq

/-- The responses the two endpoints would give for one relative path: the
destination's and source's `size_and_mt`, and the crc32c value each endpoint
would report (`none` when the entry is absent there). Both adapters build
`Entry::new(path, crc)` from the queried path, which `sync_entry_crc32c`
reconstructs below exactly as the code does. -/
structure SyncEnv where
  destSizeMt : Option DateTime × Option Nat
  srcSizeMt : Option DateTime × Option Nat
  destCrc : Option Nat
  srcCrc : Option Nat
deriving DecidableEq

/-- Embeds `RSync::sync_entry_crc32c` (src/src/gcp/sync/mod.rs:202-218),
returning the status together with the fetches and the writes it performs, in
order: fetch the destination crc32c; when absent, transfer with no mtime and
report `updated "no dest crc32c"`; when present, fetch the source crc32c and
compare the two `Entry` values: equal means `alreadySynced "same crc32c"`
without transfer, otherwise transfer with no mtime and report
`updated "different crc32c"`. -/
def sync_entry_crc32c (env : SyncEnv) (path : RelativePath) :
    RSyncStatus × List FetchEvent × List WriteEvent :=
  match env.destCrc with
  | none => (.updated "no dest crc32c" path, [.destCrc], [⟨none, path⟩])
  | some destC =>
    let crc32cSource := env.srcCrc.map fun c => Entry.mk path c
    if some (Entry.mk path destC) = crc32cSource then
      (.alreadySynced "same crc32c" path, [.destCrc, .srcCrc], [])
    else
      (.updated "different crc32c" path, [.destCrc, .srcCrc], [⟨none, path⟩])

/-- Embeds `RSync::sync_entry` (src/src/gcp/sync/mod.rs:220-242): inspect the
destination's `size_and_mt`; when both parts are present, inspect the
source's: if the source also has both, compare second-truncated mtimes and
sizes, reporting `alreadySynced "same mtime and size"` on equality and
otherwise transferring with the source mtime and reporting
`updated "different size or mtime"`; if the source lacks a part, fall through
to `sync_entry_crc32c`. When the destination has neither part, fetch the
source `size_and_mt` and transfer with its mtime, reporting `created`. When
the destination has exactly one part, fall through to `sync_entry_crc32c`. -/
def sync_entry (env : SyncEnv) (path : RelativePath) :
    RSyncStatus × List FetchEvent × List WriteEvent :=
  match env.destSizeMt with
  | (some destDt, some destSize) =>
    match env.srcSizeMt with
    | (some srcDt, some srcSize) =>
      if destDt.timestamp = srcDt.timestamp ∧ destSize = srcSize then
        (.alreadySynced "same mtime and size" path, [.destSizeMt, .srcSizeMt], [])
      else
        (.updated "different size or mtime" path, [.destSizeMt, .srcSizeMt], [⟨some srcDt, path⟩])
    | _ =>
      let r := sync_entry_crc32c env path
      (r.1, .destSizeMt :: .srcSizeMt :: r.2.1, r.2.2)
  | (none, none) =>
    (.created path, [.destSizeMt, .srcSizeMt], [⟨env.srcSizeMt.1, path⟩])
  | _ =>
    let r := sync_entry_crc32c env path
    (r.1, .destSizeMt :: r.2.1, r.2.2)

/-- Embeds `MT_SEPARATOR` (src/src/gcp/storage/client.rs:71). -/
def MT_SEPARATOR : List Char := "--gcs-storage\n".data

/-- Embeds `MT_END_SEPARATOR` (src/src/gcp/storage/client.rs:72). -/
def MT_END_SEPARATOR : List Char := "\n--gcs-storage--".data

/-- Embeds `MT_CONTENT_TYPE` (src/src/gcp/storage/client.rs:73). -/
def MT_CONTENT_TYPE : List Char := "Content-Type: application/octet-stream".data

/-- Embeds `MT_METADATA_TYPE` (src/src/gcp/storage/client.rs:74). -/
def MT_METADATA_TYPE : List Char := "Content-Type: application/json; charset=utf-8\n\n".data

/-- Embeds the body stream assembled by `StorageClient::post_multipart`
(src/src/gcp/storage/client.rs:189-237): one leading chunk
`MT_SEPARATOR ++ MT_METADATA_TYPE ++ json ++ "\n" ++ MT_SEPARATOR ++
MT_CONTENT_TYPE ++ "\n\n"`, then the byte-stream chunks, then the closing
`MT_END_SEPARATOR` chunk. `json` stands for the UTF-8 JSON serialization of
the metadata value. -/
def post_multipart_chunks (json : List Char) (body : List (List Char)) :
    List (List Char) :=
  [MT_SEPARATOR ++ MT_METADATA_TYPE ++ json ++ "\n".data
    ++ MT_SEPARATOR ++ MT_CONTENT_TYPE ++ "\n\n".data]
  ++ body ++ [MT_END_SEPARATOR]

/-- The full request body of `post_multipart`: the chunk stream, concatenated. -/
def post_multipart_body (json : List Char) (body : List (List Char)) : List Char :=
  (post_multipart_chunks json body).flatten

/-- The multipart body layout as the spec's sentence spells it, written
independently of the code constants: `--gcs-storage\n`, the JSON content type
line with its blank line, the serialized metadata, `\n`, `--gcs-storage\n`,
the octet-stream content type line with its blank line, the bytes of the
stream, and the closing `\n--gcs-storage--`. -/
def multipart_body_spec (json : List Char) (body : List (List Char)) : List Char :=
  "--gcs-storage\n".data
  ++ "Content-Type: application/json; charset=utf-8\n\n".data
  ++ json
  ++ "\n".data
  ++ "--gcs-storage\n".data
  ++ "Content-Type: application/octet-stream\n\n".data
  ++ body.flatten
  ++ "\n--gcs-storage--".data

/-- Embeds `GlobSet` (globset crate, as used in src/src/gcp/sync/mod.rs): a
set of compiled patterns, each a predicate on the path string; `matches`
returns the matching members, mirroring the index vector the crate returns. -/
def GlobSet : Type := List (List Char → Bool)

/-- Embeds `GlobSet::matches`: the members that match the path. -/
def GlobSet.matches (gs : GlobSet) (s : List Char) : List (List Char → Bool) :=
  gs.filter fun g => g s

/-- Embeds `RSync::glob_set` (src/src/gcp/sync/mod.rs:161-178) after
successful compilation of every pattern: an empty pattern list yields `none`,
a non-empty one yields the compiled set. -/
def glob_set (globs : List (List Char → Bool)) : Option GlobSet :=
  if globs.isEmpty then none else some globs

/-- The filter-relevant configuration of `RSync`
(src/src/gcp/sync/mod.rs:137-143). -/
structure RSyncConfig where
  restore_fs_mtime : Bool
  includes : Option GlobSet
  excludes : Option GlobSet

/-- Embeds `RSync::filter` (src/src/gcp/sync/mod.rs:244-261): the include
side is `matches(path).is_empty().not()` when an include set exists and
`true` otherwise; the exclude side is `matches(path).is_empty()` when an
exclude set exists and `true` otherwise; the path is admitted when both hold. -/
def RSync.filter (cfg : RSyncConfig) (relativePath : RelativePath) : Bool :=
  let i := match cfg.includes with
    | some includes => !(includes.matches relativePath.path).isEmpty
    | none => true
  let x := match cfg.excludes with
    | some excludes => (excludes.matches relativePath.path).isEmpty
    | none => true
  i && x

/-- Embeds `Token` (src/src/gcp/oauth2/token.rs:12-24), with the expiry as an
absolute time in seconds; `access_token` is the payload `Token::access_token`
clones out. -/
structure Token where
  access_token : String
  expiry : Int
deriving DecidableEq

/-- Embeds `Token::is_valid` (src/src/gcp/oauth2/token.rs:51-53): the token
counts as valid at time `now` when more than 30 seconds remain before expiry. -/
def Token.is_valid (t : Token) (now : Int) : Bool :=
  decide (t.expiry - 30 > now)

/-- Embeds `TokenStateHolder::get_token` (src/src/gcp/storage/client.rs:38-46):
read the cached token under the read lock and return its access token only
while still valid. -/
def get_token (cached : Token) (now : Int) : Option String :=
  if cached.is_valid now then some cached.access_token else none

/-- Embeds `TokenStateHolder::refresh_token` (src/src/gcp/storage/client.rs:
48-61) as a state transition on the cached token: when the cache is valid its
access token is returned and the cache is untouched; otherwise the credential
provider's fetch outcome `fetched` decides the result — an error propagates
(wrapped as `GcsTokenError`) before the cache-overwriting write executes, a
success overwrites the cache and returns the fresh access token. -/
def refresh_token (cached : Token) (now : Int) (fetched : Except Nat Token) :
    Except StorageError String × Token :=
  match get_token cached now with
  | some tok => (.ok tok, cached)
  | none =>
    match fetched with
    | .error e => (.error (.gcsTokenError e), cached)
    | .ok t => (.ok t.access_token, t)

/-- State of two concurrent `refresh_token` calls sharing one
`TokenStateHolder`: whether the cached token is valid, the reader count and
writer flag of the `RwLock`, and each task's program counter through the
atomic actions of `refresh_token` (src/src/gcp/storage/client.rs:48-61):
pc 0 acquire the read lock, pc 1 check validity and release the read lock
(done when valid), pc 2 start the provider fetch — no lock held, as in the
code — pc 3 finish the fetch, pc 4 acquire the write lock, pc 5 store and
release, pc 6 done. -/
structure RefreshConfig where
  tokenValid : Bool
  readers : Nat
  writer : Bool
  pcA : Nat
  pcB : Nat
deriving DecidableEq

/-- One interleaving step: the chosen task (`false` = A, `true` = B) performs
its next atomic action of `refresh_token` when the `RwLock` discipline allows
it. The provider fetch (pc 2 to pc 4) runs without any lock held and the
write lock is taken only afterwards, with no validity re-check before the
store, exactly as the code is written. -/
def refreshStep (cfg : RefreshConfig) (tid : Bool) : Option RefreshConfig :=
  let pc := if tid then cfg.pcB else cfg.pcA
  let setPc := fun (c : RefreshConfig) (n : Nat) =>
    if tid then { c with pcB := n } else { c with pcA := n }
  match pc with
  | 0 => if cfg.writer then none
         else some (setPc { cfg with readers := cfg.readers + 1 } 1)
  | 1 => some (setPc { cfg with readers := cfg.readers - 1 }
          (if cfg.tokenValid then 6 else 2))
  | 2 => some (setPc cfg 3)
  | 3 => some (setPc cfg 4)
  | 4 => if cfg.readers = 0 ∧ cfg.writer = false
         then some (setPc { cfg with writer := true } 5) else none
  | 5 => some (setPc { cfg with tokenValid := true, writer := false } 6)
  | _ => none

/-- Both tasks about to call `refresh_token`, the cached token no longer
valid, no locks held. -/
def refreshInit : RefreshConfig := ⟨false, 0, false, 0, 0⟩

/-- Run a schedule: at each step the named task performs its next action;
`none` when some scheduled step is not enabled. -/
def refreshRun (sched : List Bool) : Option RefreshConfig :=
  sched.foldl (fun acc tid => acc.bind fun c => refreshStep c tid) (some refreshInit)

/-- A task's provider fetch is in flight exactly at pc 3 (after fetch start,
before fetch end). -/
def fetchInFlight (pc : Nat) : Bool := pc = 3

/-- Embeds Rust `Result::unwrap` partially: `none` models the panic (abort)
on an error value, `some` the successful unwrapping. -/
def rustUnwrap {ε α : Type} : Except ε α → Option α
  | .ok a => some a
  | .error _ => none

/-- Embeds `FsPrefix::as_file_path` (src/src/gcp/sync/fs.rs:33-37): join the
base path and the relative path, modelling `PathBuf::push` for a relative
component. -/
def as_file_path (basePath : List Char) (relativePath : RelativePath) : List Char :=
  basePath ++ '/' :: relativePath.path

/-- One reflected CRC-32C (Castagnoli) bit step, polynomial 0x82F63B78. -/
def crc32cBitStep (c : Nat) : Nat :=
  if c % 2 = 1 then (c / 2) ^^^ 0x82F63B78 else c / 2

/-- Process one byte into the running (non-finalized) CRC-32C state. -/
def crc32cByte (c b : Nat) : Nat :=
  crc32cBitStep^[8] ((c ^^^ b % 256) % 2 ^ 32)

/-- Embeds `crc32c::crc32c_append` (the crc32c crate function used at
src/src/gcp/sync/fs.rs:109): resume from a finalized crc value, process the
bytes, and re-finalize. -/
def crc32c_append (crc : Nat) (data : List Nat) : Nat :=
  (data.foldl crc32cByte ((crc ^^^ 0xFFFFFFFF) % 2 ^ 32)) ^^^ 0xFFFFFFFF

/-- Embeds `FsClient::read` (src/src/gcp/sync/fs.rs:88-94): the file-open
result is `unwrap`ped — an open failure aborts (panics) instead of producing
any stream — and on success each chunk-read error is annotated as a
`"read failure"` `FsIoError`. The open outcome and the chunk outcomes are
the filesystem's responses for the computed file path. -/
def fs_read (filePath : List Char) (openResult : Except IoError Unit)
    (chunks : List (Except IoError (List Nat))) :
    Option (List (Except RSyncError (List Nat))) :=
  (rustUnwrap openResult).map fun _ =>
    chunks.map fun c =>
      match c with
      | .ok data => .ok data
      | .error e => .error (.fsIoError "read failure" filePath e)

/-- The read loop of `FsClient::get_crc32c` (src/src/gcp/sync/fs.rs:103-110):
fold the chunks through the incremental crc32c; the first chunk error aborts
with a `"crc32c failed"` `FsIoError`. -/
def crcFoldChunks (filePath : List Char) (crc : Nat)
    (chunks : List (Except IoError (List Nat))) : Except RSyncError Nat :=
  match chunks with
  | [] => .ok crc
  | .error e :: _ => .error (.fsIoError "crc32c failed" filePath e)
  | .ok data :: rest => crcFoldChunks filePath (crc32c_append crc data) rest

/-- Embeds `FsClient::get_crc32c` (src/src/gcp/sync/fs.rs:96-116): when the
file opens, stream it through the incremental crc32c starting at 0 and return
`some` entry; when the open fails, return `Ok(None)` ("absent"). -/
def fs_get_crc32c (path : RelativePath) (filePath : List Char)
    (openResult : Except IoError Unit)
    (chunks : List (Except IoError (List Nat))) :
    Except RSyncError (Option Entry) :=
  match openResult with
  | .ok _ =>
    match crcFoldChunks filePath 0 chunks with
    | .ok crc => .ok (some ⟨path, crc⟩)
    | .error e => .error e
  | .error _ => .ok none

/-- The fields a successful `fs::metadata` call exposes: the modified-time
lookup (which can itself fail) and the length. -/
structure FsMetadata where
  modified : Except IoError DateTime
  len : Nat

/-- Embeds `FsClient::size_and_mt` (src/src/gcp/sync/fs.rs:123-138): a failed
stat is "absent"; a failed modified-time lookup is an annotated error;
otherwise the `(mtime, size)` pair. -/
def fs_size_and_mt (filePath : List Char)
    (metadataResult : Except IoError FsMetadata) :
    Except RSyncError (Option (DateTime × Nat)) :=
  match metadataResult with
  | .ok m =>
    match m.modified with
    | .ok mtime => .ok (some (mtime, m.len))
    | .error e => .error (.fsIoError "file modified time failed" filePath e)
  | .error _ => .ok none

/-- Embeds `FsClient::exists` (src/src/gcp/sync/fs.rs:118-121): whether the
stat succeeded. -/
def fs_exists (metadataResult : Except IoError FsMetadata) :
    Except RSyncError Bool :=
  .ok metadataResult.isOk

/-- Embeds `FsClient::delete` (src/src/gcp/sync/fs.rs:140-145): a failed
remove is an annotated error. -/
def fs_delete (filePath : List Char) (removeResult : Except IoError Unit) :
    Except RSyncError Unit :=
  match removeResult with
  | .ok _ => .ok ()
  | .error e => .error (.fsIoError "remove file failed" filePath e)

/-! ## Theorems -/

theorem globset_matches_isEmpty (gs : GlobSet) (s : List Char) :
    (gs.matches s).isEmpty = gs.all fun g => !g s := by
  induction gs with
  | nil => rfl
  | cons g rest ih =>
    simp only [GlobSet.matches, List.filter_cons] at ih ⊢
    cases h : g s
    · simp [h, ih]
    · simp [h]

theorem bool_not_all_not {α : Type} (l : List α) (pr : α → Bool) :
    (!l.all fun a => !pr a) = l.any pr := by
  induction l with
  | nil => rfl
  | cons a l ih => cases h : pr a <;> simp [h, ih]

/-- Claim C5: the request body assembled by `post_multipart` is exactly the
concatenation, in order, of `--gcs-storage\n`, the JSON content-type header
with its blank line, the serialized metadata, `\n`, `--gcs-storage\n`, the
octet-stream content-type header with its blank line, the stream bytes, and
the closing `\n--gcs-storage--`, for every metadata serialization and every
chunked byte stream. -/
theorem post_multipart_body_layout (json : List Char) (body : List (List Char)) :
    post_multipart_body json body = multipart_body_spec json body := by
  have hlit : "Content-Type: application/octet-stream".data ++ "\n\n".data
      = "Content-Type: application/octet-stream\n\n".data := by decide
  have hoct : ∀ rest : List Char,
      "Content-Type: application/octet-stream".data ++ ("\n\n".data ++ rest)
        = "Content-Type: application/octet-stream\n\n".data ++ rest := by
    intro rest
    rw [← List.append_assoc, hlit]
  simp [post_multipart_body, post_multipart_chunks, multipart_body_spec,
    MT_SEPARATOR, MT_END_SEPARATOR, MT_CONTENT_TYPE, MT_METADATA_TYPE,
    List.flatten_append, List.append_assoc, hoct]

/-- Claim C6: with successfully compiled include and exclude pattern lists,
`RSync::filter` admits a path exactly when (the include list is empty or some
include matches) and (the exclude list is empty or no exclude matches); in
particular an empty include list admits everything and an empty exclude list
excludes nothing. -/
theorem filter_semantics (b : Bool) (incs excs : List (List Char → Bool))
    (p : RelativePath) :
    RSync.filter ⟨b, glob_set incs, glob_set excs⟩ p
      = ((incs.isEmpty || incs.any fun g => g p.path)
          && (excs.isEmpty || excs.all fun g => !g p.path)) := by
  rcases incs with _ | ⟨gi, gis⟩ <;> rcases excs with _ | ⟨ge, ges⟩ <;>
    simp [RSync.filter, glob_set, globset_matches_isEmpty, bool_not_all_not]

/-- Claim C1, counterexample: with destination mtime 5s/size 10 and source
mtime 6s/size 10 (both fully present but second-truncated mtimes differ),
`sync_entry` transfers immediately and reports `updated "different size or
mtime"`; it never fetches the destination crc32c, so it does not fall through
to the CRC comparison path as the claim states. -/
theorem sync_entry_mtime_diff_no_crc_path :
    sync_entry ⟨(some ⟨5, 0⟩, some 10), (some ⟨6, 0⟩, some 10), some 1, some 1⟩ ⟨['a']⟩
      = (.updated "different size or mtime" ⟨['a']⟩, [.destSizeMt, .srcSizeMt],
          [⟨some ⟨6, 0⟩, ⟨['a']⟩⟩])
    ∧ FetchEvent.destCrc ∉
        (sync_entry ⟨(some ⟨5, 0⟩, some 10), (some ⟨6, 0⟩, some 10), some 1, some 1⟩
          ⟨['a']⟩).2.1 := by
  decide

/-- Claim C1, amended: when the destination reports both mtime and size,
`sync_entry` fetches the source's `size_and_mt`; if the source also reports
both, equality of second-truncated mtimes and of sizes yields
`AlreadySynced{"same mtime and size"}` without transfer, and any difference
yields an immediate transfer with the source mtime reported as
`Updated{"different size or mtime"}`; only when the source lacks its mtime or
its size does `sync_entry` fall through to the CRC comparison path, whose
first fetch is the destination's crc32c. -/
theorem sync_entry_dest_both_cases (env : SyncEnv) (p : RelativePath)
    (destDt : DateTime) (destSize : Nat)
    (hdest : env.destSizeMt = (some destDt, some destSize)) :
    (∀ srcDt srcSize, env.srcSizeMt = (some srcDt, some srcSize) →
      (destDt.timestamp = srcDt.timestamp ∧ destSize = srcSize →
        sync_entry env p
          = (.alreadySynced "same mtime and size" p, [.destSizeMt, .srcSizeMt], []))
      ∧ (¬(destDt.timestamp = srcDt.timestamp ∧ destSize = srcSize) →
        sync_entry env p
          = (.updated "different size or mtime" p, [.destSizeMt, .srcSizeMt],
              [⟨some srcDt, p⟩])))
    ∧ ((env.srcSizeMt.1 = none ∨ env.srcSizeMt.2 = none) →
      sync_entry env p
        = ((sync_entry_crc32c env p).1,
            .destSizeMt :: .srcSizeMt :: (sync_entry_crc32c env p).2.1,
            (sync_entry_crc32c env p).2.2)
      ∧ (sync_entry_crc32c env p).2.1.head? = some .destCrc) := by
  constructor
  · intro srcDt srcSize hsrc
    constructor
    · intro h
      simp [sync_entry, hdest, hsrc, h]
    · intro h
      simp [sync_entry, hdest, hsrc, h]
  · intro h
    have hcrc : (sync_entry_crc32c env p).2.1.head? = some .destCrc := by
      rcases hc : env.destCrc with _ | c
      · simp [sync_entry_crc32c, hc]
      · simp only [sync_entry_crc32c, hc]
        split <;> rfl
    refine ⟨?_, hcrc⟩
    rcases hsrc : env.srcSizeMt with ⟨mt, sz⟩
    rw [hsrc] at h
    rcases mt with _ | mt'
    · simp [sync_entry, hdest, hsrc]
    · rcases sz with _ | sz'
      · simp [sync_entry, hdest, hsrc]
      · simp at h

/-- Witness for the amended C1 theorem at a concrete input: destination has
mtime and size, source lacks an mtime, both crc32c values are 7, so the CRC
path reports `alreadySynced "same crc32c"` after fetching both metadata pairs
and both crc32c values. -/
theorem sync_entry_dest_both_cases_witness :
    sync_entry ⟨(some ⟨5, 0⟩, some 10), (none, some 10), some 7, some 7⟩ ⟨['a']⟩
      = (.alreadySynced "same crc32c" ⟨['a']⟩,
          [.destSizeMt, .srcSizeMt, .destCrc, .srcCrc], []) := by
  have h := (sync_entry_dest_both_cases
    ⟨(some ⟨5, 0⟩, some 10), (none, some 10), some 7, some 7⟩ ⟨['a']⟩
    ⟨5, 0⟩ 10 rfl).2 (Or.inl rfl)
  exact h.1.trans (by decide)

/-- Claim C2: `ObjectPrefix::as_object` builds the GCS object from the bucket
and the relative path alone, ignoring the stored prefix entirely, so with
prefix "prefix" (or even a normalized "prefix/") and relative path "hello" the
addressed object name is "hello", not the concatenation "prefix/hello" that
both the claim and the repository's own `test_object_prefix_as_object` unit
test expect. -/
theorem as_object_ignores_stored_pfx :
    (ObjectPfx.new "bucket".data "prefix".data).asObject ⟨"hello".data⟩
      = .ok ⟨"bucket".data, "hello".data⟩
    ∧ (ObjectPfx.new "bucket".data "prefix/".data).asObject ⟨"hello".data⟩
      = .ok ⟨"bucket".data, "hello".data⟩
    ∧ "hello".data ≠ "prefix/hello".data := by
  decide

/-- Claim C3: `ObjectPrefix::new` stores the user-supplied prefix verbatim
(no normalization: "/prefix/" keeps its leading slash), and the listing
conversion strips the prefix only when the verbatim prefix already ends with
'/'; with prefix "prefix" the object "prefix/hello" lists as "prefix/hello"
instead of "hello", and with prefix "/prefix/" the stored leading slash makes
the strip fail, so "prefix/hello" again lists unstripped — contradicting the
claim and the repository's own `test_object_prefix` unit test. -/
theorem list_does_not_strip_pfx :
    gcsListItem (ObjectPfx.new "bucket".data "prefix".data) (some "prefix/hello".data)
      = .ok ⟨"prefix/hello".data⟩
    ∧ (ObjectPfx.new "bucket".data "/prefix/".data).pfx = "/prefix/".data
    ∧ gcsListItem (ObjectPfx.new "bucket".data "/prefix/".data) (some "prefix/hello".data)
      = .ok ⟨"prefix/hello".data⟩
    ∧ ("prefix/hello".data : List Char) ≠ "hello".data := by
  decide

/-- Claim C4, counterexample: `RelativePath::new "//a"` succeeds and stores
"/a", which begins with '/', because construction strips only one leading
slash; the claimed invariant "the stored path never begins with '/'" fails. -/
theorem relative_path_leading_slash_survives :
    RelativePath.new "//a".data = .ok ⟨"/a".data⟩
    ∧ ("/a".data : List Char).head? = some '/' := by
  decide

/-- Claim C4, amended: construction succeeds exactly when the input is
non-empty after stripping one leading slash; a stored path never contains a
backslash (each is replaced by '/'); and the stored path does not begin with
'/' provided the stripped input does not itself begin with '/' or '\'. -/
theorem relative_path_new_characterization (s : List Char) :
    ((RelativePath.new s).isOk = !(stripOnce '/' s).isEmpty)
    ∧ ∀ r, RelativePath.new s = .ok r →
        ('\\' ∉ r.path)
        ∧ ∀ c, (stripOnce '/' s).head? = some c → c ≠ '/' → c ≠ '\\' →
            r.path.head? ≠ some '/' := by
  rcases ht : stripOnce '/' s with _ | ⟨c0, rest⟩
  · refine ⟨by simp [RelativePath.new, ht, Except.isOk, Except.toBool], ?_⟩
    intro r hr
    simp [RelativePath.new, ht] at hr
  · constructor
    · simp [RelativePath.new, ht, Except.isOk, Except.toBool]
    · intro r hr
      simp only [RelativePath.new, ht, List.map_cons, List.isEmpty_cons,
        if_neg Bool.false_ne_true, ite_false] at hr
      have hr' : r = ⟨(if c0 = '\\' then '/' else c0) :: rest.map fun c =>
          if c = '\\' then '/' else c⟩ := by
        cases hr
        rfl
      subst hr'
      constructor
      · intro hmem
        rcases List.mem_cons.mp hmem with h | h
        · split at h
          · exact absurd h (by decide)
          · next hne => exact hne h.symm
        · rcases List.mem_map.mp h with ⟨a, _, ha⟩
          split at ha
          · exact absurd ha (by decide)
          · next hne => exact hne ha
      · intro c hc hslash hback
        have hcc : c0 = c := by
          simpa using hc
        subst hcc
        simp only [List.head?_cons, if_neg hback]
        intro hcontra
        exact hslash (Option.some.inj hcontra)

/-- Witness for the amended C4 theorem at the concrete input "/hello\world":
construction succeeds (the stripped input is non-empty) and the stored path
"hello/world" contains no backslash. -/
theorem relative_path_new_characterization_witness :
    ((RelativePath.new "/hello\\world".data).isOk
        = !(stripOnce '/' "/hello\\world".data).isEmpty)
    ∧ ('\\' ∉ (RelativePath.mk "hello/world".data).path) := by
  have h := relative_path_new_characterization "/hello\\world".data
  exact ⟨h.1, (h.2 ⟨"hello/world".data⟩ (by decide)).1⟩

/-- Claim C7: for a non-empty input that does not begin with '/',
`RelativePath::new` succeeds and stores the input with every backslash
replaced by '/'. -/
theorem relative_path_roundtrip (s : List Char) (hne : s ≠ [])
    (hns : s.head? ≠ some '/') :
    RelativePath.new s = .ok ⟨s.map fun c => if c = '\\' then '/' else c⟩ := by
  rcases s with _ | ⟨x, xs⟩
  · exact absurd rfl hne
  · have hx : x ≠ '/' := by
      intro h
      exact hns (by simp [h])
    simp [RelativePath.new, stripOnce, hx]

/-- Witness for the C7 theorem at the concrete input "a\b": it is non-empty,
does not begin with '/', and round-trips to "a/b". -/
theorem relative_path_roundtrip_witness :
    ("a\\b".data ≠ []) ∧ ("a\\b".data.head? ≠ some '/')
    ∧ RelativePath.new "a\\b".data = .ok ⟨"a/b".data⟩ :=
  ⟨by decide, by decide,
    (relative_path_roundtrip "a\\b".data (by decide) (by decide)).trans (by decide)⟩

/-- Claim C8: when the cached token is no longer valid and the credential
provider's fetch fails, `refresh_token` returns that error (wrapped as
`GcsTokenError`) and leaves the cached token exactly as it was, so a prior
token remains usable by other requests. -/
theorem refresh_token_failure_keeps_cache (cached : Token) (now : Int) (e : Nat)
    (hinvalid : cached.is_valid now = false) :
    refresh_token cached now (.error e) = (.error (.gcsTokenError e), cached) := by
  simp [refresh_token, get_token, hinvalid]

/-- Witness for the C8 theorem: a token that expired at time 0 is invalid at
time 100, and a failed fetch propagates the error with the cache unchanged. -/
theorem refresh_token_failure_keeps_cache_witness :
    (Token.mk "old" 0).is_valid 100 = false
    ∧ refresh_token (Token.mk "old" 0) 100 (.error 7)
        = (.error (.gcsTokenError 7), Token.mk "old" 0) :=
  ⟨by decide, refresh_token_failure_keeps_cache (Token.mk "old" 0) 100 7 (by decide)⟩

/-- Claim C9: the schedule in which both tasks pass the read-lock validity
check before either starts fetching is a legal interleaving of the code's
atomic actions, and it leaves both tasks mid-fetch simultaneously — two token
fetches in flight at once, because `refresh_token` performs the provider
fetch after releasing the read lock, before acquiring the write lock, and
never re-checks the cache. -/
theorem refresh_two_fetches_in_flight :
    (refreshRun [false, false, true, true, false, true]).map
        (fun c => (fetchInFlight c.pcA, fetchInFlight c.pcB)) = some (true, true) := by
  decide

/-- Claim C10: when the file for a relative path cannot be opened,
`FsClient::read` unwraps the failed open and aborts (panics) — it yields no
stream and in particular no `RSyncError` item — while the other filesystem
operations map the same failure to an absent result (`get_crc32c`,
`size_and_mt`), to `false` (`exists`), or to a path-annotated error
(`delete`). -/
theorem fs_read_aborts_on_open_failure (p : RelativePath) (filePath : List Char)
    (e : IoError) (chunks : List (Except IoError (List Nat))) :
    fs_read filePath (.error e) chunks = none
    ∧ fs_get_crc32c p filePath (.error e) chunks = .ok none
    ∧ fs_size_and_mt filePath (.error e) = .ok none
    ∧ fs_exists (.error e) = .ok false
    ∧ fs_delete filePath (.error e)
        = .error (.fsIoError "remove file failed" filePath e) :=
  ⟨rfl, rfl, rfl, rfl, rfl⟩

end GcsRsync
